import Mathlib

/-!
Shallow embedding of the BITApp session bot (src/bot/core/tapper.py and
src/bot/config/config.py) and proofs about it.

HTTP interactions are modelled by oracle structures that fix, for each
endpoint the code can hit, the status code and decoded JSON body the server
would answer with (indexed by call number where a function can hit the same
endpoint several times).  Each embedded function returns its Python return
value (or the exception it raises) together with the list of requests it
issued, in program order.  Log calls are kept as trace events with the
message text abbreviated; sleeps are kept as trace events carrying either
the concrete duration or the bounds of the randomized draw.
-/

namespace BITApp

/-- Python exceptions that the embedded code can raise or catch. -/
inductive Err where
  | invalidSession (msg : String)
  | clientResponseError (status : Nat)
  | exn (msg : String)
deriving Repr, DecidableEq

def Err.isInvalidSession : Err → Bool
  | .invalidSession _ => true
  | _ => false

/-- Observable actions of the bot: one constructor per request site in
tapper.py, plus log and sleep events. -/
inductive Event where
  | getTasksReq
  | getReferralsReq
  | getTaskInfoReq (id : Nat)
  | postProcessReq (id : Nat)
  | joinChannelReq
  | advReq
  | trackingReq (url : String)
  | adStatusReq (id : Nat)
  | authReq
  | getMeReq
  | searchClanReq
  | joinClanReq (id : Nat)
  | clanInfoReq (id : Nat)
  | leaveClanReq
  | checkinAvailReq
  | checkinPerformReq
  | speedtestCheckReq
  | speedtestSubmitReq
  | balanceReq
  | voucherCreateReq
  | ticketsReq
  | durovSubmitReq
  | sleep (secs : ℚ)
  | sleepRange (lo hi : ℚ)
  | log (msg : String)
deriving Repr, DecidableEq

/-- Result of running a piece of the Python code: the value it returns or
the exception it raises, plus the trace of events it emitted before that. -/
structure Res (α : Type) where
  result : Except Err α
  trace : List Event
deriving Repr

instance : Monad Res where
  pure a := ⟨.ok a, []⟩
  bind x f :=
    match x.result with
    | .error e => ⟨.error e, x.trace⟩
    | .ok a =>
      let y := f a
      ⟨y.result, x.trace ++ y.trace⟩

def emit (e : Event) : Res Unit := ⟨.ok (), [e]⟩

def raiseErr {α : Type} (e : Err) : Res α := ⟨.error e, []⟩

def ofExcept {α : Type} (x : Except Err α) : Res α := ⟨x, []⟩

/-- random.uniform a b, with the draw normalized to a seed r in the unit
interval. -/
def uniformDraw (a b r : ℚ) : ℚ := a + r * (b - a)

/-! ## Data model (config.py and the task JSON shape) -/

/-- A task object as returned by the tasks endpoints.  `referrals_count`
and `views` are the two fields of `additional_data` the code reads
(`additional_data.get("referrals_count", 0)` and
`additional_data.get("views")`, the latter defaulting to 10 at its use
site). -/
structure Task where
  id : Nat
  type : String
  title : String
  reward : Int
  is_completed : Bool
  referrals_count : Nat := 0
  views : Option Nat := none
deriving Repr, DecidableEq

namespace TaskType

def SUBSCRIBE_TELEGRAM : String := "subscribe_telegram"
def SOCIAL_NETWORK : String := "social_network"
def JOIN_CLAN : String := "join_clan"
def HOMESCREEN : String := "homescreen"
def STORY : String := "story"
def ACTIVATE_MINING_BOT : String := "activate_mining_bot"
def ADSGRAM : String := "adsgram"
def REFERRALS : String := "referrals"
def PROMOTE_BLOCKCHAIN : String := "promote_blockchain"

end TaskType

structure TaskConfig where
  attempts : Nat
  delay : Nat
  enabled : Bool
deriving Repr, DecidableEq

/-- The settings fields the embedded code reads (config.py `Settings`). -/
structure Settings where
  SUBSCRIBE_TELEGRAM : Bool := false
  USE_PROXY : Bool := true
  ENABLE_VOUCHERS : Bool := false
  DUROV_JUMP_ENABLED : Bool := false
  VOUCHER_MIN_BALANCE : Int := 10
  VOUCHER_PERCENT : ℚ := 10
  CLAN_NAME : String := "MAINE Crypto"
  TASK_CONFIGS : List (String × TaskConfig) := [
    (TaskType.SUBSCRIBE_TELEGRAM, ⟨10, 5, false⟩),
    (TaskType.SOCIAL_NETWORK, ⟨3, 2, true⟩),
    (TaskType.JOIN_CLAN, ⟨3, 2, true⟩),
    (TaskType.HOMESCREEN, ⟨4, 3, true⟩),
    (TaskType.STORY, ⟨4, 3, true⟩),
    (TaskType.ACTIVATE_MINING_BOT, ⟨4, 3, false⟩),
    (TaskType.ADSGRAM, ⟨4, 3, false⟩),
    (TaskType.REFERRALS, ⟨1, 1, true⟩),
    (TaskType.PROMOTE_BLOCKCHAIN, ⟨1, 1, false⟩)]

def defaultSettings : Settings := {}

/-- Settings.get_task_config: look the kind up in TASK_CONFIGS, fall back
to TaskConfig(4, 3, False), and override the enabled flag of the
subscribe_telegram kind with the SUBSCRIBE_TELEGRAM setting. -/
def Settings.get_task_config (s : Settings) (task_type : String) : TaskConfig :=
  let config := (s.TASK_CONFIGS.lookup task_type).getD ⟨4, 3, false⟩
  if task_type = TaskType.SUBSCRIBE_TELEGRAM then
    { config with enabled := s.SUBSCRIBE_TELEGRAM }
  else config

/-! ## Proxy guardian (Tapper.check_and_update_proxy) -/

/-- External collaborators of the proxy check: `check_proxy` (liveness
probe) and `get_working_proxy` (replacement lookup). -/
structure ProxyOracle where
  checkProxy : String → Bool
  getWorkingProxy : Option String → Option String

/-- The transport-related session state: `_current_proxy` and
`_http_client`.  The client object is modelled by an allocation id;
`nextId` is the allocator, so a freshly constructed client always gets an
id no existing client has. -/
structure ProxyState where
  currentProxy : Option String
  httpClient : Option Nat
  nextId : Nat
deriving Repr, DecidableEq

/-- Well-formedness of the allocation ids: every live client id was
allocated below the allocator counter. -/
def ProxyState.wf (s : ProxyState) : Prop := ∀ c, s.httpClient = some c → c < s.nextId

/-- Tapper.check_and_update_proxy: no-op when USE_PROXY is off; no-op when
a current proxy exists and passes check_proxy; otherwise ask for a
replacement, and on success close the old client and build a new one. -/
def check_and_update_proxy (s : Settings) (o : ProxyOracle) (st : ProxyState) :
    Bool × ProxyState :=
  if !s.USE_PROXY then (true, st)
  else
    let proxyOk := match st.currentProxy with
      | none => false
      | some p => o.checkProxy p
    if proxyOk then (true, st)
    else
      match o.getWorkingProxy st.currentProxy with
      | none => (false, st)
      | some np =>
        (true, { currentProxy := some np, httpClient := some st.nextId,
                 nextId := st.nextId + 1 })

/-! ## Task catalog (Tapper.get_tasks, Tapper.get_referrals) -/

/-- Server responses for one `get_tasks` discovery call: GET /tasks and
GET /users/me/referrals. -/
structure TasksOracle where
  tasksStatus : Nat
  tasksBody : List Task
  referralsStatus : Nat
  referralsTotal : Nat

/-- Tapper.get_referrals: GET /users/me/referrals; a non-200 answer is
logged and converted to 0, otherwise the body field `total` is returned. -/
def get_referrals (o : TasksOracle) : Nat × List Event :=
  if o.referralsStatus ≠ 200 then (0, [.getReferralsReq, .log "Failed to get referrals"])
  else (o.referralsTotal, [.getReferralsReq])

/-- The digit characters of a string, in order
(`[c for c in s if c.isdigit()]`). -/
def digitsOf (s : String) : List Char := s.toList.filter Char.isDigit

/-- Numeric value of a digit list, as `int` applied to the concatenated
digits. -/
def digitsVal (ds : List Char) : Nat :=
  ds.foldl (fun acc c => acc * 10 + (c.toNat - 48)) 0

/-- Python str.split() with no argument: split on runs of whitespace,
dropping empty pieces.  `acc` holds the characters of the current token,
reversed. -/
def pySplitAux : List Char → List Char → List String
  | [], acc => if acc = [] then [] else [String.mk acc.reverse]
  | c :: rest, acc =>
    if c.isWhitespace then
      if acc = [] then pySplitAux rest []
      else String.mk acc.reverse :: pySplitAux rest []
    else pySplitAux rest (c :: acc)

def pySplit (s : String) : List String := pySplitAux s.toList []

/-- The parse of a referral-task title performed inside get_tasks:
`int(digits of title.split()[1])`.  `none` captures the IndexError of a
title with fewer than two whitespace-separated tokens and the ValueError
of `int("")` when the second token has no digit. -/
def parseRequiredReferrals (title : String) : Option Nat :=
  match (pySplit title).get? 1 with
  | none => none
  | some tok =>
    let ds := digitsOf tok
    if ds = [] then none else some (digitsVal ds)

/-- The filtering loop of Tapper.get_tasks.  `cur` is the memoized
referral count (`current_referrals`, `None` until first needed).  Returns
the filtered list, the final memo and the emitted events. -/
def getTasksLoop (o : TasksOracle) : List Task → Option Nat → List Task × Option Nat × List Event
  | [], cur => ([], cur, [])
  | task :: rest, cur =>
    if task.is_completed then getTasksLoop o rest cur
    else if task.type = TaskType.REFERRALS then
      let fr : Nat × List Event := match cur with
        | some n => (n, [])
        | none => get_referrals o
      let tail := getTasksLoop o rest (some fr.1)
      match parseRequiredReferrals task.title with
      | none => (tail.1, tail.2.1, fr.2 ++ tail.2.2)
      | some req =>
        if fr.1 ≥ req then (task :: tail.1, tail.2.1, fr.2 ++ tail.2.2)
        else (tail.1, tail.2.1, fr.2 ++ tail.2.2)
    else
      let tail := getTasksLoop o rest cur
      (task :: tail.1, tail.2.1, tail.2.2)

/-- Tapper.get_tasks: GET /tasks; non-200 is logged and converted to the
empty list; a 200 body is filtered by the loop above. -/
def get_tasks (o : TasksOracle) : List Task × List Event :=
  if o.tasksStatus ≠ 200 then ([], [.getTasksReq, .log "Error getting tasks"])
  else
    let r := getTasksLoop o o.tasksBody none
    (r.1, .getTasksReq :: r.2.2)

/-- The per-task inclusion condition get_tasks implements, given the
referral count `cur` the memo resolves to. -/
def includeTask (cur : Nat) (t : Task) : Bool :=
  !t.is_completed &&
    (if t.type = TaskType.REFERRALS then
      match parseRequiredReferrals t.title with
      | none => false
      | some req => cur ≥ req
    else true)

/-- The referral count a discovery call works with: the memo when already
resolved, otherwise the value a referral fetch would produce. -/
def memoVal (o : TasksOracle) : Option Nat → Nat
  | some n => n
  | none => (get_referrals o).1

/-! ## Ad-watch state machine (Tapper._watch_ad) -/

/-- The decoded ad descriptor: the `banner.trackings` name/value pairs and
the `banner.bannerAssets` name/value pairs. -/
structure AdData where
  trackings : List (String × String)
  bannerAssets : List (String × String)
  bannerType : String
deriving Repr, DecidableEq

/-- Server behaviour for one _watch_ad run: the result of the adv
descriptor request (which may raise), and the result of fetching each
tracking URL (keyed by the URL, may raise). -/
structure AdOracle where
  advResult : Except Err AdData
  trackingFetch : String → Except Err Unit

/-- A Python dict subscript: KeyError when the key is absent. -/
def dictGet (d : List (String × String)) (k : String) : Res String :=
  match d.lookup k with
  | some v => pure v
  | none => raiseErr (.exn ("KeyError: " ++ k))

/-- The body of the try block of Tapper._watch_ad: fetch the descriptor,
bail out (False) when it has no trackings, then fire render, show and
reward tracking URLs in order with dwells between them. -/
def watch_ad_try (o : AdOracle) : Res Bool := do
  emit .advReq
  let ad_data ← ofExcept o.advResult
  if ad_data.trackings = [] then do
    emit (.log "No tracking data in ad response")
    pure false
  else do
    let ad_title := (((ad_data.bannerAssets.filter (fun a => a.1 = "title")).head?.map
      (fun a => a.2)).getD "Unknown")
    emit (.log ("Starting to watch ad: " ++ ad_title))
    let renderUrl ← dictGet ad_data.trackings "render"
    emit (.trackingReq renderUrl)
    let _ ← ofExcept (o.trackingFetch renderUrl)
    emit (.sleepRange 1 2)
    let showUrl ← dictGet ad_data.trackings "show"
    emit (.trackingReq showUrl)
    let _ ← ofExcept (o.trackingFetch showUrl)
    emit (.sleepRange 5 7)
    emit (.sleepRange 15 20)
    let rewardUrl ← dictGet ad_data.trackings "reward"
    emit (.trackingReq rewardUrl)
    let _ ← ofExcept (o.trackingFetch rewardUrl)
    emit (.log "Advertisement view completed successfully")
    pure true

/-- Tapper._watch_ad: the try body above wrapped in the except clauses; a
ClientResponseError is logged by status class (401 / other 4xx / rest) and
any exception is converted to False. -/
def watch_ad (o : AdOracle) : Res Bool :=
  let r := watch_ad_try o
  match r.result with
  | .ok b => ⟨.ok b, r.trace⟩
  | .error (.clientResponseError s) =>
    if s = 401 then
      ⟨.ok false, r.trace ++ [.log "Unauthorized when watching ad. Need to reauthorize."]⟩
    else if 400 ≤ s ∧ s < 500 then
      ⟨.ok false, r.trace ++ [.log "Client error while watching ad"]⟩
    else
      ⟨.ok false, r.trace ++ [.log "Server error while watching ad"]⟩
  | .error _ => ⟨.ok false, r.trace ++ [.log "Error while watching ad"]⟩

/-- The tracking URLs fetched during a trace, in order. -/
def trackingUrls (tr : List Event) : List String :=
  tr.filterMap fun e => match e with
    | .trackingReq u => some u
    | _ => none

/-! ## Task executor (Tapper.process_task and its helpers) -/

/-- Server behaviour for one process_task run.  `taskInfo` is indexed by
the call number of GET /tasks/(id) inside the run (0 = initial fetch,
1 = confirmation fetch).  `joinAttempt` gives the outcome of each
join_telegram_channel attempt.  `ad` gives the AdOracle of each ad view,
`adStatus` the response of each check_ad_task_status call. -/
structure ProcOracle where
  taskInfo : Nat → Nat × Option Task
  processStatus : Nat
  joinAttempt : Nat → Except String Bool
  referralsStatus : Nat
  referralsTotal : Nat
  ad : Nat → AdOracle
  adStatus : Nat → Nat × Bool

/-- Tapper.get_task_info: GET /tasks/(id); a non-200 answer raises
InvalidSession. -/
def get_task_info (o : ProcOracle) (idx : Nat) (task_id : Nat) : Res (Option Task) := do
  emit (.getTaskInfoReq task_id)
  let r := o.taskInfo idx
  if r.1 ≠ 200 then
    raiseErr (.invalidSession ("Failed to get task info: " ++ toString r.1))
  else pure r.2

/-- The for-loop of Tapper.handle_telegram_subscription.  `attempt` is the
Python loop variable, `fuel` the remaining iterations
(`task_config.attempts - attempt`).  A raised exception on the last
attempt returns False; earlier ones sleep and continue. -/
def handle_telegram_subscription_loop (o : ProcOracle) (cfg : TaskConfig) :
    Nat → Nat → Res Bool
  | _, 0 => do
    emit (.log "Failed to complete subscription task")
    pure false
  | attempt, fuel + 1 => do
    emit .joinChannelReq
    match o.joinAttempt attempt with
    | .ok true => do
      emit (.log "Successfully completed subscription task")
      pure true
    | .ok false => do
      emit (.sleep cfg.delay)
      handle_telegram_subscription_loop o cfg (attempt + 1) fuel
    | .error _ => do
      emit (.log "Error executing subscription task")
      if attempt < cfg.attempts - 1 then do
        emit (.sleep cfg.delay)
        handle_telegram_subscription_loop o cfg (attempt + 1) fuel
      else pure false

/-- Tapper.handle_telegram_subscription: disabled-kind short circuit, then
the bounded attempt loop. -/
def handle_telegram_subscription (o : ProcOracle) (s : Settings) : Res Bool :=
  let task_config := s.get_task_config TaskType.SUBSCRIBE_TELEGRAM
  if !task_config.enabled then
    ⟨.ok false, [.log "Telegram subscription task is disabled in settings"]⟩
  else handle_telegram_subscription_loop o task_config 0 task_config.attempts

/-- Tapper.get_referrals as called from process_task helpers (same
endpoint as the catalog one, its own oracle fields). -/
def proc_get_referrals (o : ProcOracle) : Res Nat := do
  emit .getReferralsReq
  if o.referralsStatus ≠ 200 then do
    emit (.log "Failed to get referrals")
    pure 0
  else pure o.referralsTotal

/-- Tapper.handle_referral_task: required count from additional_data
(falsy 0 fails), then compare with the fetched current count. -/
def handle_referral_task (o : ProcOracle) (task : Task) : Res Bool := do
  let required := task.referrals_count
  if required = 0 then do
    emit (.log "No required referrals count in task data")
    pure false
  else do
    let current ← proc_get_referrals o
    if current ≥ required then do
      emit (.log "Referral task can be completed")
      pure true
    else do
      emit (.log "Not enough referrals to complete task")
      pure false

/-- Tapper.check_ad_task_status: GET /tasks/(id); non-200 (or an
exception) is converted to False, otherwise the is_completed field. -/
def check_ad_task_status (o : ProcOracle) (idx : Nat) (task_id : Nat) : Res Bool := do
  emit (.adStatusReq task_id)
  let r := o.adStatus idx
  if r.1 ≠ 200 then do
    emit (.log "Error checking task status")
    pure false
  else pure r.2

/-- The for-loop of Tapper.watch_ads_task plus its trailing final check:
watch an ad (abort on failure), check completion (stop early on success),
sleep, repeat; after the views are exhausted check once more. -/
def watch_ads_task_loop (o : ProcOracle) (task_id : Nat) : Nat → Nat → Res Bool
  | i, 0 => do
    let done ← check_ad_task_status o i task_id
    if done then do
      emit (.log "Task completed")
      pure true
    else do
      emit (.log "Task was not marked as completed after all views")
      pure false
  | i, fuel + 1 => do
    let ok ← watch_ad (o.ad i)
    if !ok then do
      emit (.log "Error while watching ad")
      pure false
    else do
      let done ← check_ad_task_status o i task_id
      if done then do
        emit (.log "Task completed")
        pure true
      else do
        emit (.sleep 3)
        watch_ads_task_loop o task_id (i + 1) fuel

/-- Tapper.watch_ads_task. -/
def watch_ads_task (o : ProcOracle) (task_id views_needed : Nat) : Res Bool :=
  watch_ads_task_loop o task_id 0 views_needed

/-- The generic tail of Tapper.process_task: POST /tasks/(id)/process, a
status outside 200/202/204 is a failure, then a confirmation re-fetch
whose outcome is reported as success either way. -/
def process_task_generic (o : ProcOracle) (task_id : Nat) : Res Bool := do
  emit (.postProcessReq task_id)
  if !(o.processStatus = 200 || o.processStatus = 202 || o.processStatus = 204) then do
    emit (.log "Error processing task")
    pure false
  else do
    let check_task ← get_task_info o 1 task_id
    match check_task with
    | some t =>
      if t.is_completed then do
        emit (.log "Task completed successfully")
        pure true
      else do
        emit (.log "Task sent for processing")
        pure true
    | none => do
      emit (.log "Task sent for processing")
      pure true

/-- Tapper.process_task: initial detail fetch, idempotent short circuit on
is_completed, dispatch by kind, then (except for adsgram) the generic
process call. -/
def process_task (o : ProcOracle) (s : Settings) (task_id : Nat) (task_type : String) :
    Res Bool := do
  let task_info ← get_task_info o 0 task_id
  match task_info with
  | none => do
    emit (.log "Failed to get information about task")
    pure false
  | some info =>
    if info.is_completed then do
      emit (.log "Task is already completed")
      pure true
    else if task_type = TaskType.SUBSCRIBE_TELEGRAM then do
      let ok ← handle_telegram_subscription o s
      if !ok then pure false else process_task_generic o task_id
    else if task_type = TaskType.REFERRALS then do
      let ok ← handle_referral_task o info
      if !ok then pure false else process_task_generic o task_id
    else if task_type = TaskType.ADSGRAM then
      watch_ads_task o task_id (info.views.getD 10)
    else process_task_generic o task_id

/-! ## Task orchestration (Tapper.process_in_game_tasks,
Tapper.check_task_status) -/

/-- Server behaviour for one process_in_game_tasks run: the initial
discovery call, one ProcOracle per task position in the discovered list,
and one TasksOracle per (task position, poll attempt) for the completion
poll. -/
structure GameOracle where
  initial : TasksOracle
  proc : Nat → ProcOracle
  poll : Nat → Nat → TasksOracle

/-- Tapper.check_task_status: re-discover the task list and report the
is_completed flag of the matching entry (None, hence falsy, when the task
is not in the list). -/
def check_task_status (o : TasksOracle) (task_id : Nat) : Res Bool :=
  let r := get_tasks o
  ⟨.ok (match r.1.find? (fun t => t.id = task_id) with
    | none => false
    | some t => t.is_completed), r.2⟩

/-- The completion-poll for/else of process_in_game_tasks: sleep the
policy delay, re-check, break on success; falling off the range logs the
processing timeout. -/
def task_poll_loop (o : GameOracle) (tIdx : Nat) (cfg : TaskConfig) (task_id : Nat) :
    Nat → Nat → Res Unit
  | _, 0 => do
    emit (.log "Task processing timeout")
    pure ()
  | attempt, fuel + 1 => do
    emit (.sleep cfg.delay)
    let done ← check_task_status (o.poll tIdx attempt) task_id
    if done then do
      emit (.log "Task completed")
      pure ()
    else do
      emit (.log "Task check attempt")
      task_poll_loop o tIdx cfg task_id (attempt + 1) fuel

/-- One iteration of the for-loop of process_in_game_tasks: skip disabled
kinds and completed tasks, pace, dispatch, then poll. -/
def handle_in_game_task (o : GameOracle) (s : Settings) (tIdx : Nat) (task : Task) :
    Res Unit :=
  let task_config := s.get_task_config task.type
  if !task_config.enabled then pure ()
  else if task.is_completed then pure ()
  else do
    emit (.log ("Processing task: " ++ task.title))
    emit (.sleepRange 2 5)
    let success ← process_task (o.proc tIdx) s task.id task.type
    if !success then do
      emit (.log "Failed to process task")
      pure ()
    else task_poll_loop o tIdx task_config task.id 0 task_config.attempts

/-- The for-loop of process_in_game_tasks over the discovered list. -/
def tasks_loop (o : GameOracle) (s : Settings) : Nat → List Task → Res Unit
  | _, [] => pure ()
  | tIdx, t :: rest => do
    handle_in_game_task o s tIdx t
    tasks_loop o s (tIdx + 1) rest

/-- Tapper.process_in_game_tasks. -/
def process_in_game_tasks (o : GameOracle) (s : Settings) : Res Unit := do
  let r := get_tasks o.initial
  let _ ← (⟨.ok (), r.2⟩ : Res Unit)
  tasks_loop o s 0 r.1

/-- The provider-specific side-effecting requests of the task executor:
the generic process POST, the channel join, and the ad requests (the adv
descriptor fetch and the tracking pings). -/
def Event.isSideEffect : Event → Bool
  | .postProcessReq _ => true
  | .joinChannelReq => true
  | .advReq => true
  | .trackingReq _ => true
  | _ => false

/-! ## Clan membership (Tapper.search_clan, join_clan, get_clan_info,
leave_clan, check_and_join_clan) -/

structure Clan where
  id : Nat
  name : String
deriving Repr, DecidableEq

/-- Server behaviour for one check_and_join_clan run (each endpoint is hit
at most once per run). -/
structure ClanOracle where
  searchStatus : Nat
  searchBody : List Clan
  joinStatus : Nat
  infoStatus : Nat
  infoBody : Option Clan
  leaveStatus : Nat

/-- Tapper.search_clan: non-200 is soft (None); otherwise the id of the
first clan whose name equals CLAN_NAME, None when absent. -/
def search_clan (s : Settings) (o : ClanOracle) : Res (Option Nat) := do
  emit .searchClanReq
  if o.searchStatus ≠ 200 then do
    emit (.log "Failed to search clan")
    pure none
  else
    match o.searchBody.find? (fun c => c.name = s.CLAN_NAME) with
    | some c => do
      emit (.log "Found clan")
      pure (some c.id)
    | none => do
      emit (.log "Clan not found")
      pure none

/-- Tapper.join_clan: POST /clans/(id)/join, 200/204 succeed. -/
def join_clan (o : ClanOracle) (clan_id : Nat) : Res Bool := do
  emit (.joinClanReq clan_id)
  if o.joinStatus = 200 || o.joinStatus = 204 then do
    emit (.log "Successfully joined clan")
    pure true
  else do
    emit (.log "Failed to join clan")
    pure false

/-- Tapper.get_clan_info: non-200 is soft (the empty dict, here None). -/
def get_clan_info (o : ClanOracle) (clan_id : Nat) : Res (Option Clan) := do
  emit (.clanInfoReq clan_id)
  if o.infoStatus ≠ 200 then do
    emit (.log "Failed to get clan info")
    pure none
  else pure o.infoBody

/-- Tapper.leave_clan: DELETE /clans/leave, 200/204 succeed. -/
def leave_clan (o : ClanOracle) : Res Bool := do
  emit .leaveClanReq
  if o.leaveStatus = 200 || o.leaveStatus = 204 then do
    emit (.log "Successfully left current clan")
    pure true
  else do
    emit (.log "Failed to leave clan")
    pure false

/-- Tapper.check_and_join_clan, returning the new `_clan_id`.  Joining
sets it, a successful leave clears it, failures keep it. -/
def check_and_join_clan (s : Settings) (o : ClanOracle) (cid : Option Nat) :
    Res (Option Nat) :=
  match cid with
  | none => do
    let found ← search_clan s o
    match found with
    | some i => do
      let joined ← join_clan o i
      pure (if joined then some i else none)
    | none => pure none
  | some c => do
    let info ← get_clan_info o c
    match info with
    | none => pure (some c)
    | some clan =>
      if clan.name ≠ s.CLAN_NAME then do
        emit (.log "Currently in wrong clan")
        let left ← leave_clan o
        if left then do
          let found ← search_clan s o
          match found with
          | some i => do
            let joined ← join_clan o i
            pure (if joined then some i else none)
          | none => pure none
        else pure (some c)
      else do
        emit (.log "Already in correct clan")
        pure (some c)

/-! ## Daily check-in, authentication, profile (Tapper.check_daily_checkin,
perform_daily_checkin, auth, get_me) -/

structure CheckinOracle where
  availStatus : Nat
  next_available_at : Option String
  performStatus : Nat

/-- Tapper.check_daily_checkin: non-200 is soft (False); otherwise the
check-in is available iff next_available_at is null. -/
def check_daily_checkin (o : CheckinOracle) : Res Bool := do
  emit .checkinAvailReq
  if o.availStatus ≠ 200 then do
    emit (.log "Failed to check daily checkin")
    pure false
  else pure (o.next_available_at = none)

/-- Tapper.perform_daily_checkin: POST, 200/204 succeed, others are soft
failures. -/
def perform_daily_checkin (o : CheckinOracle) : Res Bool := do
  emit .checkinPerformReq
  if o.performStatus = 200 || o.performStatus = 204 then do
    emit (.log "Daily check-in completed successfully")
    pure true
  else do
    emit (.log "Failed to perform daily checkin")
    pure false

/-- Server behaviour of POST /auth/token plus the check-in calls auth
makes after storing the token. -/
structure AuthOracle where
  authStatus : Nat
  access_token : String
  checkin : CheckinOracle

/-- Tapper.auth: POST /auth/token; a non-200 answer raises
InvalidSession; on success the token is stored and the daily check-in is
checked and, when available, performed. -/
def auth (o : AuthOracle) : Res String := do
  emit .authReq
  if o.authStatus ≠ 200 then
    raiseErr (.invalidSession ("Auth failed with status " ++ toString o.authStatus))
  else do
    let avail ← check_daily_checkin o.checkin
    if avail then do
      let _ ← perform_daily_checkin o.checkin
      pure o.access_token
    else pure o.access_token

structure MeOracle where
  meStatus : Nat
  clan_id_field : Option Nat
  username : String

/-- Tapper.get_me: GET /users/me; a non-200 answer raises InvalidSession;
a truthy clan_id field replaces the cached `_clan_id`. -/
def get_me (o : MeOracle) (cid : Option Nat) : Res (Option Nat) := do
  emit .getMeReq
  if o.meStatus ≠ 200 then
    raiseErr (.invalidSession ("Get me failed with status " ++ toString o.meStatus))
  else
    match o.clan_id_field with
    | some c => if c ≠ 0 then pure (some c) else pure cid
    | none => pure cid

/-! ## Eligibility timer (Tapper.check_speedtest, submit_speedtest) -/

structure SpeedOracle where
  checkStatus : Nat
  next_available : Option ℚ
  submitStatus : Nat
  submitAmount : Int

/-- The mutable loop state of Tapper.run (plus the transport state). -/
structure RunState where
  access_token_created_time : ℚ
  init_data : Option String
  clan_id : Option Nat
  next_available : Option ℚ
  proxySt : ProxyState
deriving Repr, DecidableEq

/-- Tapper.check_speedtest: GET /speedtest; a non-200 answer raises
InvalidSession; a present next_available timestamp is stored and yields
False, a null one is cleared and yields True. -/
def check_speedtest (o : SpeedOracle) (st : RunState) : Res (Bool × RunState) := do
  emit .speedtestCheckReq
  if o.checkStatus ≠ 200 then
    raiseErr (.invalidSession ("Speedtest check failed with status " ++ toString o.checkStatus))
  else
    match o.next_available with
    | some t => do
      emit (.log "Game is not available")
      pure (false, { st with next_available := some t })
    | none => do
      emit (.log "Game is available")
      pure (true, { st with next_available := none })

/-- Tapper.submit_speedtest: POST /speedtest; a non-200 answer raises
InvalidSession, otherwise the awarded amount is returned. -/
def submit_speedtest (o : SpeedOracle) : Res Int := do
  emit .speedtestSubmitReq
  if o.submitStatus ≠ 200 then
    raiseErr (.invalidSession ("Submit speedtest failed with status " ++ toString o.submitStatus))
  else do
    emit (.log "Speedtest completed")
    pure o.submitAmount

/-! ## Mini-game and vouchers (Tapper.check_tickets, play_durov_jump,
get_balance, create_voucher, process_vouchers) -/

/-- Server behaviour of the ineligible-window extras.  The ticket and
mini-game endpoints are indexed by call number; `durovFuel` bounds the
unrolling of the source's while-tickets loop (the embedding of only its
finite behaviours). -/
structure ExtrasOracle where
  ticketsStatus : Nat → Nat
  ticketsAt : Nat → Nat
  durovStatus : Nat → Nat
  durovAmount : Nat → Int
  durovFuel : Nat
  balanceStatus : Nat
  balanceAmount : Int

/-- Tapper.check_tickets: GET /users/me; non-200 is soft (0). -/
def check_tickets (o : ExtrasOracle) (idx : Nat) : Res Nat := do
  emit .ticketsReq
  if o.ticketsStatus idx ≠ 200 then do
    emit (.log "Failed to check tickets")
    pure 0
  else pure (o.ticketsAt idx)

/-- Tapper.play_durov_jump: disabled-kill-switch, a tickets read, the game
dwell, then the score POST; only a 200 with a positive amount counts. -/
def play_durov_jump (s : Settings) (o : ExtrasOracle) (idx : Nat) : Res Bool := do
  if !s.DUROV_JUMP_ENABLED then pure false
  else do
    let _tickets ← check_tickets o idx
    emit (.sleepRange 60 180)
    emit .durovSubmitReq
    if o.durovStatus idx = 200 then
      if o.durovAmount idx > 0 then do
        emit (.log "Durov Jump completed")
        pure true
      else do
        emit (.log "Durov Jump completed but received no reward")
        pure false
    else do
      emit (.log "Failed to submit Durov Jump score")
      pure false

/-- The while-tickets loop of Tapper.run, unrolled on the oracle's fuel:
play, pace, re-read tickets, stop at zero. -/
def durov_while (s : Settings) (o : ExtrasOracle) : Nat → Nat → Res Unit
  | _, 0 => pure ()
  | k, fuel + 1 => do
    let _ ← play_durov_jump s o k
    emit (.sleepRange 2 5)
    let t ← check_tickets o (k + 1)
    if t > 0 then durov_while s o (k + 2) fuel else pure ()

/-- Python int() applied to a rational: truncation toward zero. -/
def pyInt (q : ℚ) : Int := if q < 0 then -Int.floor (-q) else Int.floor q

/-- Tapper.get_balance: GET /users/me; non-200 is soft (0). -/
def get_balance (o : ExtrasOracle) : Res Int := do
  emit .balanceReq
  if o.balanceStatus ≠ 200 then do
    emit (.log "Failed to get balance")
    pure 0
  else do
    emit (.log "Current balance")
    pure o.balanceAmount

/-- Tapper.create_voucher.  Its first statement evaluates
settings.MIN_ACTION_DELAY and settings.MAX_ACTION_DELAY, two attributes
the Settings class of config.py does not define, so the call raises
AttributeError before issuing any request. -/
def create_voucher : Res Unit :=
  raiseErr (.exn "AttributeError: MIN_ACTION_DELAY")

/-- Tapper.process_vouchers: balance gate, amount computation, voucher
creation, everything wrapped in a catch-all that logs and swallows. -/
def process_vouchers (s : Settings) (o : ExtrasOracle) : Res Unit :=
  if !s.ENABLE_VOUCHERS then pure ()
  else
    let body : Res Unit := do
      let balance ← get_balance o
      if balance < s.VOUCHER_MIN_BALANCE then do
        emit (.log "Not enough balance for voucher")
        pure ()
      else
        let amount := pyInt ((balance : ℚ) * (s.VOUCHER_PERCENT / 100))
        if amount ≤ 0 then do
          emit (.log "Calculated voucher amount is too small")
          pure ()
        else do
          let _ ← create_voucher
          pure ()
    match body.result with
    | .ok _ => body
    | .error _ => ⟨.ok (), body.trace ++ [.log "Error processing vouchers"]⟩

/-! ## Session control loop (Tapper.run) -/

/-- The control-flow outcome the try body of one loop iteration reports:
either a `continue` preceded by a sleep, or a normal fall-through to the
next iteration. -/
inductive Flow where
  | sleepContinue (secs : ℚ)
  | done
deriving Repr, DecidableEq

/-- All server and environment behaviour one loop iteration of Tapper.run
can observe.  `webData` is the result of get_tg_web_data (an external
collaborator whose failures surface as exceptions); `now` the value of
time(); the r-fields the unit-interval seeds of the iteration's
randomized draws. -/
structure IterOracle where
  proxy : ProxyOracle
  webData : Except Err String
  authO : AuthOracle
  me : MeOracle
  clan : ClanOracle
  checkin2 : CheckinOracle
  game : GameOracle
  speed : SpeedOracle
  extras : ExtrasOracle
  now : ℚ
  rBackoff : ℚ
  rJitter : ℚ
  rPre : ℚ

/-- The truthiness test `not init_data`: None and the empty string are
falsy. -/
def falsyStr : Option String → Bool
  | none => true
  | some s => s = ""

/-- The part of the try body after the credential-refresh block: daily
check-in, task orchestration, then the speedtest eligibility branch with
the mini-game/voucher extras and the wait computation. -/
def run_after_auth (s : Settings) (o : IterOracle) (st : RunState) :
    Res (Flow × RunState) := do
  let avail ← check_daily_checkin o.checkin2
  let _ ← (if avail then do
    let _ ← perform_daily_checkin o.checkin2
    emit (.sleepRange 2 5)
  else pure ())
  let _ ← process_in_game_tasks o.game s
  emit (.sleepRange 2 5)
  let r ← check_speedtest o.speed st
  if !r.1 then
    match r.2.next_available with
    | some t => do
      let _ ← (if s.DUROV_JUMP_ENABLED then do
        let tickets ← check_tickets o.extras 0
        if tickets > 0 then do
          emit (.log "Found tickets for Durov Jump")
          durov_while s o.extras 1 o.extras.durovFuel
        else pure ()
      else pure ())
      let _ ← (if s.ENABLE_VOUCHERS then process_vouchers s o.extras else pure ())
      let wait := t - o.now
      emit (.log "Waiting before next attempt")
      pure (Flow.sleepContinue (wait + uniformDraw 1 30 o.rJitter), r.2)
    | none => pure (Flow.done, r.2)
  else do
    emit (.sleep (uniformDraw 40 60 o.rPre))
    let _ ← submit_speedtest o.speed
    pure (Flow.done, r.2)

/-- The try body of one iteration of Tapper.run: refresh the credential
when the token is older than 7200s or no web data is cached (an empty
blob sleeps 300s and retries; the auth/profile/clan sequence runs
otherwise), then the post-auth part. -/
def run_try_body (s : Settings) (o : IterOracle) (st : RunState) :
    Res (Flow × RunState) := do
  if (o.now - st.access_token_created_time ≥ 7200) ∨ falsyStr st.init_data then do
    let init_data ← ofExcept o.webData
    let st1 : RunState := { st with init_data := some init_data }
    if init_data = "" then do
      emit (.log "Failed to get webview URL. Retrying in 5 minutes")
      pure (Flow.sleepContinue 300, st1)
    else do
      let _token ← auth o.authO
      let cid ← get_me o.me st1.clan_id
      emit (.log "Logged in")
      let cid2 ← check_and_join_clan s o.clan cid
      let st2 : RunState :=
        { st1 with clan_id := cid2, access_token_created_time := o.now }
      run_after_auth s o st2
  else run_after_auth s o st

/-- What one iteration of the perpetual loop does, seen from outside. -/
inductive IterOutcome where
  | fatal (msg : String)
  | backoff (secs : ℚ)
  | sleepContinue (secs : ℚ)
  | done
deriving Repr, DecidableEq

/-- One iteration of the while-True loop of Tapper.run: the proxy check
(outside the try), then the try body with its two except clauses —
InvalidSession is re-raised, anything else is logged and followed by a
uniform(60, 120) backoff sleep. -/
def run_iteration (s : Settings) (o : IterOracle) (st : RunState) :
    IterOutcome × RunState × List Event :=
  let pr := check_and_update_proxy s o.proxy st.proxySt
  let st0 : RunState := { st with proxySt := pr.2 }
  if !pr.1 then
    (.sleepContinue 300, st0, [.log "Failed to find working proxy. Sleep 5 minutes."])
  else
    let r := run_try_body s o st0
    match r.result with
    | .ok (Flow.sleepContinue secs, st') => (.sleepContinue secs, st', r.trace)
    | .ok (Flow.done, st') => (.done, st', r.trace)
    | .error (.invalidSession m) => (.fatal m, st0, r.trace)
    | .error _ =>
      (.backoff (uniformDraw 60 120 o.rBackoff), st0, r.trace ++ [.log "Unknown error"])

/-! ## Concrete instances used to evaluate the embedding -/

def sampleAdData : AdData :=
  ⟨[("render", "rURL"), ("show", "sURL"), ("reward", "wURL")], [], "video"⟩

def sampleAdO : AdOracle := ⟨.ok sampleAdData, fun _ => .ok ()⟩

def sampleTask : Task :=
  { id := 7, type := TaskType.SOCIAL_NETWORK, title := "Follow us", reward := 100,
    is_completed := false }

def sampleProcO : ProcOracle :=
  ⟨fun _ => (200, some sampleTask), 200, fun _ => .ok true, 200, 0,
   fun _ => sampleAdO, fun _ => (200, false)⟩

def sampleTasksO : TasksOracle := ⟨200, [], 200, 0⟩

def sampleGameO : GameOracle := ⟨sampleTasksO, fun _ => sampleProcO, fun _ _ => sampleTasksO⟩

def sampleClanO : ClanOracle := ⟨200, [], 200, 200, none, 200⟩

/-- A check-in oracle whose availability answer carries a timestamp, so
the check-in is not available. -/
def sampleCheckinBusy : CheckinOracle := ⟨200, some "2025-01-01T00:00:00Z", 200⟩

def sampleMeO : MeOracle := ⟨200, none, "user"⟩

def sampleExtrasO : ExtrasOracle :=
  ⟨fun _ => 200, fun _ => 0, fun _ => 200, fun _ => 0, 0, 200, 0⟩

def sampleProxyO : ProxyOracle := ⟨fun _ => true, fun _ => none⟩

def sampleProxySt : ProxyState := ⟨some "proxy1", some 0, 1⟩

/-- A pending referral task asking for five invites. -/
def refTask5 : Task :=
  { id := 1, type := TaskType.REFERRALS, title := "Invite 5 friends", reward := 10,
    is_completed := false }

/-- A pending referral task whose title has no digits in its second
token. -/
def refTaskNoDigits : Task :=
  { id := 2, type := TaskType.REFERRALS, title := "Invite friends", reward := 10,
    is_completed := false }

/-- A pending referral task whose title has a single token. -/
def refTaskOneToken : Task :=
  { id := 3, type := TaskType.REFERRALS, title := "InviteFriends", reward := 10,
    is_completed := false }

/-- sampleTask with the completion flag set. -/
def completedTask : Task := { sampleTask with is_completed := true }

/-- A task-executor oracle whose detail fetches always answer with the
completed task. -/
def procOCompleted : ProcOracle :=
  { sampleProcO with taskInfo := fun _ => (200, some completedTask) }

/-- A pending task of the disabled adsgram kind. -/
def adsgramTask : Task :=
  { id := 9, type := TaskType.ADSGRAM, title := "Watch ads", reward := 5,
    is_completed := false }

/-- A game oracle whose per-task detail fetches answer with the completed
task. -/
def gameOCompleted : GameOracle :=
  ⟨sampleTasksO, fun _ => procOCompleted, fun _ _ => sampleTasksO⟩

/-- An ad oracle whose descriptor request is answered with 401. -/
def ad401Oracle : AdOracle := ⟨.error (.clientResponseError 401), fun _ => .ok ()⟩

/-- An iteration oracle with a fresh token, no pending check-in, an empty
task list and a speedtest check answering 500. -/
def cexC1Oracle : IterOracle :=
  ⟨sampleProxyO, .ok "webdata", ⟨200, "token", sampleCheckinBusy⟩, sampleMeO,
   sampleClanO, sampleCheckinBusy, sampleGameO, ⟨500, none, 200, 0⟩, sampleExtrasO,
   0, 0, 0, 0⟩

/-- Loop state with a fresh token and cached web data. -/
def freshState : RunState := ⟨0, some "webdata", none, none, sampleProxySt⟩

/-- An iteration oracle with a stale token whose token source yields an
empty web-session blob. -/
def cexC2Oracle : IterOracle :=
  ⟨sampleProxyO, .ok "", ⟨200, "token", sampleCheckinBusy⟩, sampleMeO,
   sampleClanO, sampleCheckinBusy, sampleGameO, ⟨200, none, 200, 0⟩, sampleExtrasO,
   10000, 0, 0, 0⟩

/-- Loop state with a stale token (issued at time 0, now 10000). -/
def staleState : RunState := ⟨0, none, none, none, sampleProxySt⟩

/-- A stale-token oracle whose auth exchange answers 500. -/
def authFailOracle : IterOracle :=
  ⟨sampleProxyO, .ok "webdata", ⟨500, "token", sampleCheckinBusy⟩, sampleMeO,
   sampleClanO, sampleCheckinBusy, sampleGameO, ⟨200, none, 200, 0⟩, sampleExtrasO,
   10000, 0, 0, 0⟩

/-- A stale-token oracle whose token source raises a generic exception. -/
def webExnOracle : IterOracle :=
  ⟨sampleProxyO, .error (.exn "boom"), ⟨200, "token", sampleCheckinBusy⟩, sampleMeO,
   sampleClanO, sampleCheckinBusy, sampleGameO, ⟨200, none, 200, 0⟩, sampleExtrasO,
   10000, (1 : ℚ) / 2, 0, 0⟩

/-! ## Lemmas about the embedding -/

@[simp] theorem Res.pure_def {α : Type} (a : α) : (pure a : Res α) = ⟨.ok a, []⟩ := rfl

@[simp] theorem Res.bind_ok {α β : Type} (a : α) (tr : List Event) (f : α → Res β) :
    (Res.mk (.ok a) tr >>= f) = ⟨(f a).result, tr ++ (f a).trace⟩ := rfl

@[simp] theorem Res.bind_error {α β : Type} (e : Err) (tr : List Event) (f : α → Res β) :
    (Res.mk (.error e) tr >>= f) = ⟨.error e, tr⟩ := rfl

@[simp] theorem Res.emit_def (e : Event) : emit e = ⟨.ok (), [e]⟩ := rfl

@[simp] theorem Res.ofExcept_def {α : Type} (x : Except Err α) : ofExcept x = ⟨x, []⟩ := rfl

@[simp] theorem Res.raiseErr_def {α : Type} (e : Err) :
    (raiseErr e : Res α) = ⟨.error e, []⟩ := rfl

theorem Res.bind_decomp {α β : Type} (x : Res α) (f : α → Res β) :
    (x >>= f) = match x.result with
      | .error e => ⟨.error e, x.trace⟩
      | .ok a => ⟨(f a).result, x.trace ++ (f a).trace⟩ := by
  obtain ⟨r, tr⟩ := x
  cases r <;> rfl

theorem uniformDraw_bounds (a b r : ℚ) (hab : a ≤ b) (h0 : 0 ≤ r) (h1 : r ≤ 1) :
    a ≤ uniformDraw a b r ∧ uniformDraw a b r ≤ b := by
  unfold uniformDraw
  constructor
  · nlinarith
  · nlinarith

theorem getTasksLoop_filter (o : TasksOracle) (ts : List Task) (cur : Option Nat) :
    (getTasksLoop o ts cur).1 = ts.filter (includeTask (memoVal o cur)) := by
  induction ts generalizing cur with
  | nil => simp [getTasksLoop]
  | cons task rest ih =>
    by_cases hc : task.is_completed
    · simp [getTasksLoop, hc, includeTask, ih]
    · by_cases hty : task.type = TaskType.REFERRALS
      · cases cur with
        | some n =>
          cases hp : parseRequiredReferrals task.title with
          | none => simp [getTasksLoop, hc, hty, includeTask, hp, ih, memoVal]
          | some req =>
            by_cases hge : n ≥ req <;>
              simp [getTasksLoop, hc, hty, includeTask, hp, hge, ih, memoVal]
        | none =>
          cases hp : parseRequiredReferrals task.title with
          | none => simp [getTasksLoop, hc, hty, includeTask, hp, ih, memoVal]
          | some req =>
            by_cases hge : (get_referrals o).1 ≥ req <;>
              simp [getTasksLoop, hc, hty, includeTask, hp, hge, ih, memoVal]
      · simp [getTasksLoop, hc, hty, includeTask, ih]

theorem getTasksLoop_referral_fetches (o : TasksOracle) (ts : List Task) :
    (∀ n, ((getTasksLoop o ts (some n)).2.2.count Event.getReferralsReq) = 0) ∧
    ((getTasksLoop o ts none).2.2.count Event.getReferralsReq) ≤ 1 := by
  induction ts with
  | nil => simp [getTasksLoop]
  | cons task rest ih =>
    have hfetch : (get_referrals o).2.count Event.getReferralsReq = 1 := by
      by_cases h : o.referralsStatus = 200 <;> simp [get_referrals, h]
    constructor
    · intro n
      by_cases hc : task.is_completed
      · simp [getTasksLoop, hc, ih.1 n]
      · by_cases hty : task.type = TaskType.REFERRALS
        · cases hp : parseRequiredReferrals task.title with
          | none => simp [getTasksLoop, hc, hty, hp, ih.1 n]
          | some req =>
            by_cases hge : n ≥ req <;> simp [getTasksLoop, hc, hty, hp, hge, ih.1 n]
        · simp [getTasksLoop, hc, hty, ih.1 n]
    · by_cases hc : task.is_completed
      · simp [getTasksLoop, hc, ih.2]
      · by_cases hty : task.type = TaskType.REFERRALS
        · cases hp : parseRequiredReferrals task.title with
          | none =>
            simp [getTasksLoop, hc, hty, hp, List.count_append, hfetch,
              ih.1 (get_referrals o).1]
          | some req =>
            by_cases hge : (get_referrals o).1 ≥ req <;>
              simp [getTasksLoop, hc, hty, hp, hge, List.count_append, hfetch,
                ih.1 (get_referrals o).1]
        · simp [getTasksLoop, hc, hty, ih.2]

theorem getTasksLoop_no_getTasksReq (o : TasksOracle) (ts : List Task) (cur : Option Nat) :
    Event.getTasksReq ∉ (getTasksLoop o ts cur).2.2 := by
  induction ts generalizing cur with
  | nil => simp [getTasksLoop]
  | cons task rest ih =>
    have hfetch : ∀ cur', Event.getTasksReq ∉ (match cur' with
        | some n => ((n, []) : Nat × List Event)
        | none => get_referrals o).2 := by
      intro cur'
      cases cur' with
      | some n => simp
      | none => by_cases h : o.referralsStatus = 200 <;> simp [get_referrals, h]
    by_cases hc : task.is_completed
    · simpa [getTasksLoop, hc] using ih cur
    · by_cases hty : task.type = TaskType.REFERRALS
      · cases hp : parseRequiredReferrals task.title with
        | none =>
          simp only [getTasksLoop, hc, hty, if_false, if_true, Bool.false_eq_true, hp,
            List.mem_append]
          push_neg
          refine ⟨?_, ih _⟩
          cases cur with
          | some n => simp
          | none => simpa using hfetch none
        | some req =>
          by_cases hge : (match cur with | some n => (n, ([] : List Event)) | none => get_referrals o).1 ≥ req <;>
            (simp only [getTasksLoop, hc, hty, if_false, if_true, Bool.false_eq_true, hp, hge,
               List.mem_append, if_pos, if_neg]
             push_neg
             refine ⟨?_, ih _⟩
             cases cur with
             | some n => simp
             | none => simpa using hfetch none)
      · simpa [getTasksLoop, hc, hty] using ih cur

theorem get_tasks_no_side_effects (o : TasksOracle) :
    (get_tasks o).2.filter Event.isSideEffect = [] := by
  unfold get_tasks
  by_cases h : o.tasksStatus = 200
  · simp only [h, ne_eq, not_true_eq_false, if_false, ite_false, reduceIte]
    have : ∀ ts cur, ((getTasksLoop o ts cur).2.2.filter Event.isSideEffect) = [] := by
      intro ts
      induction ts with
      | nil => intro cur; simp [getTasksLoop]
      | cons task rest ih =>
        intro cur
        have hfr : (get_referrals o).2.filter Event.isSideEffect = [] := by
          by_cases hr : o.referralsStatus = 200 <;> simp [get_referrals, hr, Event.isSideEffect]
        by_cases hc : task.is_completed
        · simp [getTasksLoop, hc, ih]
        · by_cases hty : task.type = TaskType.REFERRALS
          · cases hp : parseRequiredReferrals task.title with
            | none =>
              cases cur with
              | some n => simp [getTasksLoop, hc, hty, hp, ih]
              | none => simp [getTasksLoop, hc, hty, hp, ih, hfr]
            | some req =>
              cases cur with
              | some n =>
                by_cases hge : n ≥ req <;> simp [getTasksLoop, hc, hty, hp, hge, ih]
              | none =>
                by_cases hge : (get_referrals o).1 ≥ req <;>
                  simp [getTasksLoop, hc, hty, hp, hge, ih, hfr]
          · simp [getTasksLoop, hc, hty, ih]
    simp [this, Event.isSideEffect]
  · simp [h, Event.isSideEffect]

theorem get_tasks_mem_not_completed (o : TasksOracle) (t : Task)
    (h : t ∈ (get_tasks o).1) : t.is_completed = false := by
  unfold get_tasks at h
  by_cases hs : o.tasksStatus = 200
  · simp only [hs, ne_eq, not_true_eq_false, if_false, ite_false, reduceIte] at h
    rw [getTasksLoop_filter] at h
    have := (List.mem_filter.mp h).2
    unfold includeTask at this
    simp only [Bool.and_eq_true, Bool.not_eq_true'] at this
    exact this.1
  · simp [hs] at h

/-! ## Claims -/

/-- C9: check_and_update_proxy returns true without touching the
transport when proxy use is disabled or the current proxy passes the
probe; when the probe fails and a replacement exists the transport after
the call differs from the one before; when no replacement exists it
returns false and leaves everything untouched. -/
theorem claim_C9 (s : Settings) (o : ProxyOracle) (st : ProxyState) :
    (s.USE_PROXY = false → check_and_update_proxy s o st = (true, st)) ∧
    (∀ p, st.currentProxy = some p → o.checkProxy p = true →
      check_and_update_proxy s o st = (true, st)) ∧
    (s.USE_PROXY = true → ∀ p, st.currentProxy = some p → o.checkProxy p = false →
      st.wf → ∀ np, o.getWorkingProxy st.currentProxy = some np →
      (check_and_update_proxy s o st).1 = true ∧
      (check_and_update_proxy s o st).2.httpClient ≠ st.httpClient ∧
      (check_and_update_proxy s o st).2.currentProxy = some np) ∧
    (s.USE_PROXY = true → ∀ p, st.currentProxy = some p → o.checkProxy p = false →
      o.getWorkingProxy st.currentProxy = none →
      check_and_update_proxy s o st = (false, st)) := by
  refine ⟨?_, ?_, ?_, ?_⟩
  · intro h
    simp [check_and_update_proxy, h]
  · intro p hp hc
    by_cases hu : s.USE_PROXY
    · simp [check_and_update_proxy, hu, hp, hc]
    · simp [check_and_update_proxy, hu]
  · intro hu p hp hc hwf np hnp
    rw [hp] at hnp
    have hred : check_and_update_proxy s o st =
        (true, { currentProxy := some np, httpClient := some st.nextId,
                 nextId := st.nextId + 1 }) := by
      simp [check_and_update_proxy, hu, hp, hc, hnp]
    rw [hred]
    refine ⟨rfl, ?_, rfl⟩
    cases hcl : st.httpClient with
    | none => simp
    | some c =>
      have := hwf c hcl
      simp only [ne_eq, Option.some.injEq]
      omega
  · intro hu p hp hc hnp
    rw [hp] at hnp
    simp [check_and_update_proxy, hu, hp, hc, hnp]

/-- Closed witness for claim_C9, exercising all four branches at concrete
proxies. -/
theorem claim_C9_witness :
    (check_and_update_proxy { defaultSettings with USE_PROXY := false } sampleProxyO
      sampleProxySt = (true, sampleProxySt)) ∧
    (check_and_update_proxy defaultSettings sampleProxyO sampleProxySt =
      (true, sampleProxySt)) ∧
    ((check_and_update_proxy defaultSettings ⟨fun _ => false, fun _ => some "proxy2"⟩
        sampleProxySt).2.httpClient ≠ sampleProxySt.httpClient) ∧
    (check_and_update_proxy defaultSettings ⟨fun _ => false, fun _ => none⟩
      sampleProxySt = (false, sampleProxySt)) := by
  refine ⟨?_, ?_, ?_, ?_⟩
  · exact (claim_C9 { defaultSettings with USE_PROXY := false } sampleProxyO
      sampleProxySt).1 rfl
  · exact (claim_C9 defaultSettings sampleProxyO sampleProxySt).2.1 "proxy1" rfl rfl
  · exact ((claim_C9 defaultSettings ⟨fun _ => false, fun _ => some "proxy2"⟩
      sampleProxySt).2.2.1 rfl "proxy1" rfl rfl
      (by intro c hc; simp only [sampleProxySt, Option.some.injEq] at hc ⊢; omega)
      "proxy2" rfl).2.1
  · exact (claim_C9 defaultSettings ⟨fun _ => false, fun _ => none⟩
      sampleProxySt).2.2.2 rfl "proxy1" rfl rfl rfl

theorem watch_ad_error_shape (o : AdOracle) (e : Err)
    (h : (watch_ad_try o).result = .error e) :
    (watch_ad o).result = .ok false ∧
    ∃ m, (watch_ad o).trace = (watch_ad_try o).trace ++ [.log m] := by
  simp only [watch_ad]
  rw [h]
  cases e with
  | invalidSession m => exact ⟨rfl, "Error while watching ad", rfl⟩
  | clientResponseError st =>
    by_cases h1 : st = 401
    · simp [h1]
    · by_cases h2 : 400 ≤ st ∧ st < 500 <;> simp [h1, h2]
  | exn m => exact ⟨rfl, "Error while watching ad", rfl⟩

theorem watch_ad_ok_shape (o : AdOracle) (b : Bool)
    (h : (watch_ad_try o).result = .ok b) :
    watch_ad o = ⟨.ok b, (watch_ad_try o).trace⟩ := by
  simp only [watch_ad]
  rw [h]

/-- C4: in every discovery call, a pending referral task is included iff
the digits of the second whitespace token of its title parse to a count
that is at most the current referral count; the referral count is fetched
at most once per call; a parse failure excludes the task without an
exception.  Concretely, "Invite 5 friends" with count 5 is included, with
count 4 excluded, and malformed titles are excluded. -/
theorem claim_C4 (o : TasksOracle) (h200 : o.tasksStatus = 200) :
    (∀ t : Task, t ∈ (get_tasks o).1 ↔
      t ∈ o.tasksBody ∧ includeTask (memoVal o none) t = true) ∧
    ((get_tasks o).2.count Event.getReferralsReq ≤ 1) ∧
    ((get_tasks ⟨200, [refTask5], 200, 5⟩).1 = [refTask5]) ∧
    ((get_tasks ⟨200, [refTask5], 200, 4⟩).1 = []) ∧
    ((get_tasks ⟨200, [refTaskNoDigits, refTaskOneToken], 200, 5⟩).1 = []) := by
  refine ⟨?_, ?_, by decide, by decide, by decide⟩
  · intro t
    have hred : (get_tasks o).1 = o.tasksBody.filter (includeTask (memoVal o none)) := by
      simp only [get_tasks, h200, ne_eq, not_true_eq_false, if_false, ite_false, reduceIte]
      exact getTasksLoop_filter o o.tasksBody none
    rw [hred]
    exact List.mem_filter
  · have hred : (get_tasks o).2 = .getTasksReq :: (getTasksLoop o o.tasksBody none).2.2 := by
      simp [get_tasks, h200]
    rw [hred]
    have h1 := (getTasksLoop_referral_fetches o o.tasksBody).2
    have h2 : (Event.getTasksReq :: (getTasksLoop o o.tasksBody none).2.2).count
        Event.getReferralsReq =
        (getTasksLoop o o.tasksBody none).2.2.count Event.getReferralsReq := by
      simp [List.count_cons]
    rw [h2]
    exact h1

/-- Closed witness for claim_C4: the five-invite task with five referrals
is discovered. -/
theorem claim_C4_witness :
    refTask5 ∈ (get_tasks ⟨200, [refTask5], 200, 5⟩).1 :=
  ((claim_C4 ⟨200, [refTask5], 200, 5⟩ rfl).1 refTask5).mpr ⟨by decide, by decide⟩

/-- C3: when the detail re-fetch inside process_task shows the task
already completed, the call reports success without POSTing to the
process endpoint. -/
theorem claim_C3 (o : ProcOracle) (s : Settings) (task_id : Nat) (task_type : String)
    (info : Task) (h : o.taskInfo 0 = (200, some info)) (hc : info.is_completed = true) :
    (process_task o s task_id task_type).result = .ok true ∧
    Event.postProcessReq task_id ∉ (process_task o s task_id task_type).trace := by
  have hred : process_task o s task_id task_type =
      ⟨.ok true, [.getTaskInfoReq task_id, .log "Task is already completed"]⟩ := by
    simp [process_task, get_task_info, h, hc]
  rw [hred]
  exact ⟨rfl, by simp⟩

/-- Closed witness for claim_C3 at a concrete completed task. -/
theorem claim_C3_witness :
    (process_task procOCompleted defaultSettings 7 TaskType.SOCIAL_NETWORK).result =
      .ok true ∧
    Event.postProcessReq 7 ∉
      (process_task procOCompleted defaultSettings 7 TaskType.SOCIAL_NETWORK).trace :=
  claim_C3 procOCompleted defaultSettings 7 TaskType.SOCIAL_NETWORK completedTask rfl rfl

/-- C8: for a task of a generic kind whose initial detail fetch shows it
pending, process_task POSTs to the generic process endpoint; a status
outside 200/202/204 is reported as failure; an accepted status whose
confirmation re-fetch still shows the task incomplete is nevertheless
reported as success. -/
theorem claim_C8 (o : ProcOracle) (s : Settings) (task_id : Nat) (task_type : String)
    (info : Task)
    (hty1 : task_type ≠ TaskType.SUBSCRIBE_TELEGRAM)
    (hty2 : task_type ≠ TaskType.REFERRALS)
    (hty3 : task_type ≠ TaskType.ADSGRAM)
    (h0 : o.taskInfo 0 = (200, some info)) (hnc : info.is_completed = false) :
    (Event.postProcessReq task_id ∈ (process_task o s task_id task_type).trace) ∧
    (¬(o.processStatus = 200 ∨ o.processStatus = 202 ∨ o.processStatus = 204) →
      (process_task o s task_id task_type).result = .ok false) ∧
    (∀ info2, (o.processStatus = 200 ∨ o.processStatus = 202 ∨ o.processStatus = 204) →
      o.taskInfo 1 = (200, some info2) → info2.is_completed = false →
      (process_task o s task_id task_type).result = .ok true) := by
  have hred : process_task o s task_id task_type =
      ⟨(process_task_generic o task_id).result,
        .getTaskInfoReq task_id :: (process_task_generic o task_id).trace⟩ := by
    simp [process_task, get_task_info, h0, hnc, hty1, hty2, hty3]
  by_cases hst : o.processStatus = 200 ∨ o.processStatus = 202 ∨ o.processStatus = 204
  · have hb : (o.processStatus = 200 || o.processStatus = 202 ||
        o.processStatus = 204) = true := by
      rcases hst with h | h | h <;> simp [h]
    refine ⟨?_, fun hcon => absurd hst hcon, fun info2 _ h1 hnc2 => ?_⟩
    · rw [hred]
      simp [process_task_generic, hb]
    · rw [hred]
      simp [process_task_generic, hb, get_task_info, h1, hnc2]
  · have hb : (o.processStatus = 200 || o.processStatus = 202 ||
        o.processStatus = 204) = false := by
      push_neg at hst
      simp [hst.1, hst.2.1, hst.2.2]
    refine ⟨?_, fun _ => ?_, fun info2 hpos _ _ => absurd hpos hst⟩
    · rw [hred]
      simp [process_task_generic, hb]
    · rw [hred]
      simp [process_task_generic, hb]

/-- Closed witness for claim_C8 at a concrete pending social task whose
confirmation fetch still shows it pending. -/
theorem claim_C8_witness :
    Event.postProcessReq 7 ∈
      (process_task sampleProcO defaultSettings 7 TaskType.SOCIAL_NETWORK).trace ∧
    (process_task sampleProcO defaultSettings 7 TaskType.SOCIAL_NETWORK).result =
      .ok true :=
  ⟨(claim_C8 sampleProcO defaultSettings 7 TaskType.SOCIAL_NETWORK sampleTask
      (by decide) (by decide) (by decide) rfl rfl).1,
   (claim_C8 sampleProcO defaultSettings 7 TaskType.SOCIAL_NETWORK sampleTask
      (by decide) (by decide) (by decide) rfl rfl).2.2 sampleTask (Or.inl rfl) rfl rfl⟩

/-- C5: an ad watch that returns success fetches exactly the three
tracking URLs in the order render, show, reward; when the show fetch
fails the reward URL is never fetched. -/
theorem claim_C5 (o : AdOracle) (ad : AdData) (ru su wu : String)
    (hadv : o.advResult = .ok ad)
    (hr : ad.trackings.lookup "render" = some ru)
    (hs : ad.trackings.lookup "show" = some su)
    (hw : ad.trackings.lookup "reward" = some wu) :
    ((watch_ad o).result = .ok true → trackingUrls (watch_ad o).trace = [ru, su, wu]) ∧
    (∀ e, o.trackingFetch ru = .ok () → o.trackingFetch su = .error e →
      trackingUrls (watch_ad o).trace = [ru, su]) := by
  have hne : ¬(ad.trackings = []) := by
    intro h
    rw [h] at hr
    simp at hr
  cases hfr : o.trackingFetch ru with
  | error e1 =>
    have htry : (watch_ad_try o).result = .error e1 := by
      simp [watch_ad_try, hadv, hne, dictGet, hr, hfr]
    constructor
    · intro hcon
      rw [(watch_ad_error_shape o e1 htry).1] at hcon
      simp at hcon
    · intro e hok _
      simp at hok
  | ok u1 =>
    cases u1
    cases hfs : o.trackingFetch su with
    | error e2 =>
      have htry : (watch_ad_try o).result = .error e2 := by
        simp [watch_ad_try, hadv, hne, dictGet, hr, hs, hfr, hfs]
      obtain ⟨hres, m, htr⟩ := watch_ad_error_shape o e2 htry
      constructor
      · intro hcon
        rw [hres] at hcon
        simp at hcon
      · intro e _ _
        rw [htr]
        simp [trackingUrls, watch_ad_try, hadv, hne, dictGet, hr, hs, hfr, hfs]
    | ok u2 =>
      cases u2
      cases hfw : o.trackingFetch wu with
      | error e3 =>
        have htry : (watch_ad_try o).result = .error e3 := by
          simp [watch_ad_try, hadv, hne, dictGet, hr, hs, hw, hfr, hfs, hfw]
        constructor
        · intro hcon
          rw [(watch_ad_error_shape o e3 htry).1] at hcon
          simp at hcon
        · intro e _ hcon
          simp at hcon
      | ok u3 =>
        cases u3
        have htry : (watch_ad_try o).result = .ok true := by
          simp [watch_ad_try, hadv, hne, dictGet, hr, hs, hw, hfr, hfs, hfw]
        rw [watch_ad_ok_shape o true htry]
        constructor
        · intro _
          simp [watch_ad_try, hadv, hne, dictGet, hr, hs, hw, hfr, hfs, hfw, trackingUrls]
        · intro e _ hcon
          simp at hcon

/-- Closed witness for claim_C5: a fully successful watch at the sample
descriptor fetches exactly render, show, reward. -/
theorem claim_C5_witness :
    trackingUrls (watch_ad sampleAdO).trace = ["rURL", "sURL", "wURL"] :=
  (claim_C5 sampleAdO sampleAdData "rURL" "sURL" "wURL" rfl (by decide) (by decide)
    (by decide)).1 rfl

/-- C6: any exception in the ad-watch try body, HTTP errors included, is
converted to the Failed outcome False; the call never propagates an
exception; a 401 is distinguished only by its log line and is still
Failed. -/
theorem claim_C6 (o : AdOracle) :
    (∀ e, (watch_ad_try o).result = .error e → (watch_ad o).result = .ok false) ∧
    (∃ b, (watch_ad o).result = .ok b) ∧
    (∀ st, (watch_ad_try o).result = .error (.clientResponseError st) →
      (watch_ad o).result = .ok false ∧
      (st = 401 → (watch_ad o).trace = (watch_ad_try o).trace ++
        [.log "Unauthorized when watching ad. Need to reauthorize."])) := by
  refine ⟨?_, ?_, ?_⟩
  · intro e h
    exact (watch_ad_error_shape o e h).1
  · cases hres : (watch_ad_try o).result with
    | error e => exact ⟨false, (watch_ad_error_shape o e hres).1⟩
    | ok b =>
      rw [watch_ad_ok_shape o b hres]
      exact ⟨b, rfl⟩
  · intro st h
    refine ⟨(watch_ad_error_shape o _ h).1, ?_⟩
    intro h401
    subst h401
    simp only [watch_ad]
    rw [h]
    simp

/-- Closed witness for claim_C6: a 401 on the descriptor request yields
the Failed outcome. -/
theorem claim_C6_witness :
    (watch_ad ad401Oracle).result = .ok false :=
  (claim_C6 ad401Oracle).1 (.clientResponseError 401) rfl

theorem handle_in_game_task_disabled (o : GameOracle) (s : Settings) (tIdx : Nat)
    (task : Task) (h : (s.get_task_config task.type).enabled = false) :
    handle_in_game_task o s tIdx task = ⟨.ok (), []⟩ := by
  simp [handle_in_game_task, h]

theorem tasks_loop_all_disabled (o : GameOracle) (s : Settings) (ts : List Task)
    (h : ∀ t ∈ ts, (s.get_task_config t.type).enabled = false) :
    ∀ i, tasks_loop o s i ts = ⟨.ok (), []⟩ := by
  induction ts with
  | nil => intro i; rfl
  | cons t rest ih =>
    intro i
    have h1 := handle_in_game_task_disabled o s i t (h t (by simp))
    have h2 := ih (fun x hx => h x (by simp [hx])) (i + 1)
    simp [tasks_loop, h1, h2]

/-- C7: a task whose kind policy is disabled is skipped without any
request; a kind absent from the policy table falls back to the disabled
TaskConfig(4, 3, False); a run whose discovered tasks all have disabled
kinds makes no side-effecting request at all. -/
theorem claim_C7 (s : Settings) :
    (∀ (o : GameOracle) (tIdx : Nat) (task : Task),
      (s.get_task_config task.type).enabled = false →
      handle_in_game_task o s tIdx task = ⟨.ok (), []⟩) ∧
    (∀ ty, defaultSettings.TASK_CONFIGS.lookup ty = none →
      defaultSettings.get_task_config ty = ⟨4, 3, false⟩) ∧
    (∀ o : GameOracle, (∀ t ∈ (get_tasks o.initial).1,
        (s.get_task_config t.type).enabled = false) →
      ((process_in_game_tasks o s).trace.filter Event.isSideEffect) = []) := by
  refine ⟨?_, ?_, ?_⟩
  · exact fun o tIdx task h => handle_in_game_task_disabled o s tIdx task h
  · intro ty h
    have hne : ty ≠ TaskType.SUBSCRIBE_TELEGRAM := by
      intro he
      rw [he] at h
      revert h
      decide
    simp [Settings.get_task_config, h, hne]
  · intro o hall
    have hloop := tasks_loop_all_disabled o s (get_tasks o.initial).1 hall 0
    have hred : (process_in_game_tasks o s).trace = (get_tasks o.initial).2 := by
      simp [process_in_game_tasks, hloop]
    rw [hred]
    exact get_tasks_no_side_effects o.initial

/-- Closed witness for claim_C7: the disabled adsgram task is skipped
silently and an unmapped kind gets the disabled default policy. -/
theorem claim_C7_witness :
    handle_in_game_task sampleGameO defaultSettings 0 adsgramTask = ⟨.ok (), []⟩ ∧
    defaultSettings.get_task_config "mystery_kind" = ⟨4, 3, false⟩ :=
  ⟨(claim_C7 defaultSettings).1 sampleGameO 0 adsgramTask (by decide),
   (claim_C7 defaultSettings).2.1 "mystery_kind" (by decide)⟩

theorem get_tasks_one_fetch (o : TasksOracle) :
    (get_tasks o).2.count Event.getTasksReq = 1 := by
  unfold get_tasks
  by_cases h : o.tasksStatus = 200
  · have hz := List.count_eq_zero.mpr (getTasksLoop_no_getTasksReq o o.tasksBody none)
    simp [h, List.count_cons, hz]
  · simp [h, List.count_cons]

theorem check_task_status_eq (o : TasksOracle) (task_id : Nat) :
    check_task_status o task_id = ⟨.ok false, (get_tasks o).2⟩ := by
  simp only [check_task_status]
  cases hf : (get_tasks o).1.find? (fun t => t.id = task_id) with
  | none => rfl
  | some t =>
    have := get_tasks_mem_not_completed o t (List.mem_of_find?_eq_some hf)
    simp [this]

theorem task_poll_loop_exhausts (o : GameOracle) (tIdx : Nat) (cfg : TaskConfig)
    (task_id : Nat) (fuel attempt : Nat) :
    (task_poll_loop o tIdx cfg task_id attempt fuel).result = .ok () ∧
    Event.log "Task processing timeout" ∈
      (task_poll_loop o tIdx cfg task_id attempt fuel).trace ∧
    (task_poll_loop o tIdx cfg task_id attempt fuel).trace.count Event.getTasksReq =
      fuel := by
  induction fuel generalizing attempt with
  | zero => simp [task_poll_loop]
  | succ n ih =>
    have hc := check_task_status_eq (o.poll tIdx attempt) task_id
    have hcount := get_tasks_one_fetch (o.poll tIdx attempt)
    obtain ⟨ih1, ih2, ih3⟩ := ih (attempt + 1)
    refine ⟨?_, ?_, ?_⟩
    · simp [task_poll_loop, hc, ih1]
    · simp [task_poll_loop, hc, List.mem_append, ih2]
    · simp [task_poll_loop, hc, List.count_append, List.count_cons, hcount, ih3]
      omega

/-- C10: check_task_status can never report completion, because it looks
the task up in the get_tasks result, which filters completed tasks out:
an entry found there has is_completed false and a server-completed task
is simply absent.  Consequently the completion poll of
process_in_game_tasks runs all its configured attempts and logs the
processing timeout, and after a successful dispatch the timeout log is
always reached. -/
theorem claim_C10 :
    (∀ (o : TasksOracle) (task_id : Nat),
      (check_task_status o task_id).result = .ok false) ∧
    (∀ (o : GameOracle) (tIdx : Nat) (cfg : TaskConfig) (task_id attempt fuel : Nat),
      (task_poll_loop o tIdx cfg task_id attempt fuel).result = .ok () ∧
      Event.log "Task processing timeout" ∈
        (task_poll_loop o tIdx cfg task_id attempt fuel).trace ∧
      (task_poll_loop o tIdx cfg task_id attempt fuel).trace.count Event.getTasksReq
        = fuel) ∧
    (∀ (o : GameOracle) (s : Settings) (tIdx : Nat) (task : Task),
      (s.get_task_config task.type).enabled = true → task.is_completed = false →
      (process_task (o.proc tIdx) s task.id task.type).result = .ok true →
      Event.log "Task processing timeout" ∈
        (handle_in_game_task o s tIdx task).trace) := by
  refine ⟨?_, ?_, ?_⟩
  · intro o task_id
    rw [check_task_status_eq]
  · intro o tIdx cfg task_id attempt fuel
    exact task_poll_loop_exhausts o tIdx cfg task_id fuel attempt
  · intro o s tIdx task hen hnc hsucc
    have hpoll := (task_poll_loop_exhausts o tIdx (s.get_task_config task.type)
      task.id (s.get_task_config task.type).attempts 0).2.1
    rcases hp : process_task (o.proc tIdx) s task.id task.type with ⟨pres, ptr⟩
    rw [hp] at hsucc
    simp only at hsucc
    subst hsucc
    simp [handle_in_game_task, hen, hnc, hp, hpoll]

/-- Closed witness for claim_C10 part three: a successfully dispatched
enabled task still ends in the processing-timeout log. -/
theorem claim_C10_witness :
    Event.log "Task processing timeout" ∈
      (handle_in_game_task gameOCompleted defaultSettings 0 sampleTask).trace :=
  claim_C10.2.2 gameOCompleted defaultSettings 0 sampleTask (by decide) rfl rfl

/-- Counterexample to C2: with a stale token and a token source answering
an empty web-session blob, the loop iteration sleeps 300s and retries —
it does not abort the session. -/
theorem claim_C2_counterexample :
    (run_iteration defaultSettings cexC2Oracle staleState).1 =
      .sleepContinue 300 := by
  have hproxy : (check_and_update_proxy defaultSettings cexC2Oracle.proxy
      staleState.proxySt).1 = true := rfl
  have hstale : (cexC2Oracle.now - staleState.access_token_created_time ≥ 7200) ∨
      falsyStr staleState.init_data = true := Or.inr rfl
  simp only [run_iteration, hproxy, Bool.not_true, Bool.false_eq_true, if_false,
    ite_false, reduceIte, run_try_body]
  rw [if_pos hstale]
  simp [cexC2Oracle]

/-- C2 amended: only a non-200 from POST /auth/token is session-fatal (it
raises InvalidSession, which the loop re-raises); an empty web-session
blob from the token source is not — the loop logs, sleeps 300s and
retries the iteration. -/
theorem claim_C2_amended (s : Settings) (o : IterOracle) (st : RunState)
    (hproxy : (check_and_update_proxy s o.proxy st.proxySt).1 = true)
    (hstale : (o.now - st.access_token_created_time ≥ 7200) ∨
      falsyStr st.init_data = true) :
    (o.webData = .ok "" → (run_iteration s o st).1 = .sleepContinue 300) ∧
    (∀ d, o.webData = .ok d → d ≠ "" → o.authO.authStatus ≠ 200 →
      (run_iteration s o st).1 =
        .fatal ("Auth failed with status " ++ toString o.authO.authStatus)) := by
  constructor
  · intro hw
    simp only [run_iteration, hproxy, Bool.not_true, Bool.false_eq_true, if_false,
      ite_false, reduceIte]
    simp [run_try_body, hstale, hw]
  · intro d hw hne hauth
    simp only [run_iteration, hproxy, Bool.not_true, Bool.false_eq_true, if_false,
      ite_false, reduceIte]
    simp [run_try_body, hstale, hw, hne, auth, hauth]

/-- Closed witness for claim_C2_amended: a 500 on the token exchange ends
the session. -/
theorem claim_C2_amended_witness :
    (run_iteration defaultSettings authFailOracle staleState).1 =
      .fatal ("Auth failed with status " ++ toString (500 : Nat)) :=
  (claim_C2_amended defaultSettings authFailOracle staleState rfl
    (Or.inr rfl)).2 "webdata" rfl (by decide) (by decide)

/-- Counterexample to C1: a 500 on GET /speedtest — a non-2xx response
outside the categories the spec declares session-fatal — raises
InvalidSession and terminates the session instead of being converted,
retried, or handled by the loop backoff. -/
theorem claim_C1_counterexample :
    (run_iteration defaultSettings cexC1Oracle freshState).1 =
      .fatal ("Speedtest check failed with status " ++ toString (500 : Nat)) := by
  have hproxy : (check_and_update_proxy defaultSettings cexC1Oracle.proxy
      freshState.proxySt).1 = true := rfl
  have hcond : ¬((cexC1Oracle.now - freshState.access_token_created_time ≥ 7200) ∨
      falsyStr freshState.init_data = true) := by
    push_neg
    constructor
    · norm_num [cexC1Oracle, freshState]
    · simp [freshState, falsyStr]
  have hafter : ∀ rst : RunState,
      (run_after_auth defaultSettings cexC1Oracle rst).result =
        .error (.invalidSession ("Speedtest check failed with status " ++
          toString (500 : Nat))) := by
    intro rst
    simp [run_after_auth, check_daily_checkin, cexC1Oracle, sampleCheckinBusy,
      process_in_game_tasks, get_tasks, sampleGameO, sampleTasksO, getTasksLoop,
      tasks_loop, check_speedtest]
  simp only [run_iteration, hproxy, Bool.not_true, Bool.false_eq_true, if_false,
    ite_false, reduceIte, run_try_body]
  rw [if_neg hcond]
  rw [hafter]

/-- C1 amended: the loop-level handling holds — any exception other than
InvalidSession reaching the loop body is caught and followed by a
uniform(60, 120) backoff, and InvalidSession propagates out — but the
speedtest endpoints convert non-200 responses into session-fatal
InvalidSession rather than transient false/empty results, so those
non-2xx responses do terminate the session. -/
theorem claim_C1_amended (s : Settings) (o : IterOracle) (st : RunState)
    (hproxy : (check_and_update_proxy s o.proxy st.proxySt).1 = true)
    (h0 : 0 ≤ o.rBackoff) (h1 : o.rBackoff ≤ 1) :
    (∀ e, (run_try_body s o
        { st with proxySt := (check_and_update_proxy s o.proxy st.proxySt).2 }).result =
        .error e → e.isInvalidSession = false →
      ∃ v, (run_iteration s o st).1 = .backoff v ∧ 60 ≤ v ∧ v ≤ 120) ∧
    (∀ m, (run_try_body s o
        { st with proxySt := (check_and_update_proxy s o.proxy st.proxySt).2 }).result =
        .error (.invalidSession m) →
      (run_iteration s o st).1 = .fatal m) ∧
    (∀ (so : SpeedOracle) (rst : RunState), so.checkStatus ≠ 200 →
      (check_speedtest so rst).result =
        .error (.invalidSession ("Speedtest check failed with status " ++
          toString so.checkStatus))) := by
  refine ⟨?_, ?_, ?_⟩
  · intro e he hnis
    have hb := uniformDraw_bounds 60 120 o.rBackoff (by norm_num) h0 h1
    refine ⟨uniformDraw 60 120 o.rBackoff, ?_, hb.1, hb.2⟩
    simp only [run_iteration, hproxy, Bool.not_true, Bool.false_eq_true, if_false,
      ite_false, reduceIte]
    rw [he]
    cases e with
    | invalidSession m => simp [Err.isInvalidSession] at hnis
    | clientResponseError st' => rfl
    | exn m => rfl
  · intro m hm
    simp only [run_iteration, hproxy, Bool.not_true, Bool.false_eq_true, if_false,
      ite_false, reduceIte]
    rw [hm]
  · intro so rst hst
    simp [check_speedtest, hst]

/-- Closed witness for claim_C1_amended: a generic exception from the
token source is caught at the loop and followed by a backoff within the
60–120s bounds. -/
theorem claim_C1_amended_witness :
    ∃ v, (run_iteration defaultSettings webExnOracle staleState).1 = .backoff v ∧
      60 ≤ v ∧ v ≤ 120 :=
  (claim_C1_amended defaultSettings webExnOracle staleState rfl
    (by norm_num [webExnOracle]) (by norm_num [webExnOracle])).1 (.exn "boom")
    (by
      have hstale : (webExnOracle.now - staleState.access_token_created_time ≥ 7200) ∨
          falsyStr staleState.init_data = true := Or.inr rfl
      simp only [run_try_body]
      rw [if_pos hstale]
      simp [webExnOracle]) rfl

end BITApp
